import Mathlib

/-!
Verification of the nanobot Zalo bridge (TypeScript sources).

Shallow embedding of:
 - the Session Adapter `ZaloClient` in `src/bridge-zca/src/zalo.ts`
   (login, inbound-message listener, sendMessage, sendTypingEvent,
   disconnect);
 - the `BridgeServer` in `src/server.ts`
   (connection handlers, handleCommand, handleLogin, broadcast).

JavaScript runtime values that the code inspects dynamically are modelled
by a small inductive `JsVal`; exceptions by `Except`; callbacks
(`onMessage`, `onStatus`) and vendor-library calls by explicit output
lists; the event loop by a step function over an explicit server state,
with external nondeterminism (vendor login / send outcomes) supplied as
oracle fields on the input events.
-/

/-- A dynamically-typed JavaScript value, restricted to the shapes the
bridge actually inspects.  `vundef` models both an absent property and an
explicit `undefined`, matching JS property access. -/
inductive JsVal where
  | vundef
  | vnull
  | vnum (n : Int)
  | vstr (s : String)
deriving DecidableEq, Repr

/-- The runtime value of `message.data.content`: a plain string, an
object (whose `href` property reads as a `JsVal`, `vundef` when absent),
or a nullish value on which property access throws. -/
inductive JsContent where
  | cstr (s : String)
  | cobj (href : JsVal)
  | cnull
  | cundef
deriving DecidableEq, Repr

/-- Model of JavaScript `Number(x)` on the values of `JsVal`, returning
`none` for NaN.  `Number(undefined)` is NaN, `Number(null)` is 0, a
numeric string converts, other strings give NaN. -/
def jsNumber : JsVal → Option Int
  | JsVal.vundef => none
  | JsVal.vnull => some 0
  | JsVal.vnum n => some n
  | JsVal.vstr s => if s = "" then some 0 else s.toInt?

/-- The fields of `message.data` that the listener reads. -/
structure RawData where
  uidFrom : JsVal
  msgId : JsVal
  ts : JsVal
  content : JsContent
deriving DecidableEq, Repr

/-- A raw vendor event as delivered by `api.listener.on("message", ...)`:
`data` is `none` when `message.data` is nullish (so `message.data.content`
throws), `threadId` is an arbitrary runtime value, `evType` is the
`ThreadType` discriminant (`ThreadType.Group = 1`). -/
structure RawEvent where
  data : Option RawData
  threadId : JsVal
  evType : Nat
deriving DecidableEq, Repr

/-- Content of a forwarded message: verbatim text, or the re-shaped
`{type: "attachment", href: ...}` object.  The `href` field carries the
runtime value of `message.data.content.href` (the source casts it with
`as string` without checking). -/
inductive MsgContent where
  | text (s : String)
  | attachment (href : JsVal)
deriving DecidableEq, Repr

/-- The `InboundMessage` record passed to `onMessage`.  `senderId` and
`messageId` hold the raw optional-chained reads `message.data?.uidFrom`
and `message.data?.msgId`. -/
structure InboundMessage where
  senderId : JsVal
  threadId : String
  content : MsgContent
  messageId : JsVal
  timestamp : Int
  isGroup : Bool
deriving DecidableEq, Repr

/-- A thrown JavaScript exception (the listener only distinguishes
whether one was thrown, not its payload). -/
inductive JsErr where
  | typeError
deriving DecidableEq, Repr

namespace ZaloClient

/-- The `try` block of the `"message"` listener in `setupMessageListener`
(`src/bridge-zca/src/zalo.ts`, lines 73-111), as a function from the raw
event and the current time (`Date.now()`, an oracle) to either a thrown
exception or the optional `InboundMessage` handed to `onMessage`:

 - `message.data.content` is read first (inside `JSON.stringify` for the
   debug log), throwing when `data` is nullish;
 - `timestamp = Number(message.data?.ts) || Date.now()` — the fallback
   fires on NaN and on 0, the two falsy numbers;
 - content classification: a string passes through; otherwise the branch
   `message.data.content.href !== null` re-shapes into an attachment
   (this strict comparison is true for an absent/undefined `href`), and
   throws when `content` itself is nullish; `href === null` returns
   without emitting;
 - `threadId.slice(0, 8)` in the log line throws when `threadId` is not
   a string, which happens after classification but before `onMessage`. -/
def tryBody (e : RawEvent) (now : Int) : Except JsErr (Option InboundMessage) :=
  match e.data with
  | none => Except.error JsErr.typeError
  | some d =>
    let senderId := d.uidFrom
    let messageId := d.msgId
    let timestamp : Int :=
      match jsNumber d.ts with
      | some n => if n = 0 then now else n
      | none => now
    let isGroup := e.evType = 1
    match d.content with
    | JsContent.cstr s =>
      match e.threadId with
      | JsVal.vstr t =>
        Except.ok (some ⟨senderId, t, MsgContent.text s, messageId, timestamp, isGroup⟩)
      | _ => Except.error JsErr.typeError
    | JsContent.cobj href =>
      if href ≠ JsVal.vnull then
        match e.threadId with
        | JsVal.vstr t =>
          Except.ok (some ⟨senderId, t, MsgContent.attachment href, messageId, timestamp, isGroup⟩)
        | _ => Except.error JsErr.typeError
      else
        Except.ok none
    | JsContent.cnull => Except.error JsErr.typeError
    | JsContent.cundef => Except.error JsErr.typeError

/-- The whole `"message"` listener: the `try` block wrapped in the
`catch` that logs and swallows any exception.  The result is the list of
`onMessage` invocations the handler makes for this event (`onMessage` is
the final statement of the `try` block, so a caught exception means no
invocation happened). -/
def messageListener (e : RawEvent) (now : Int) : List InboundMessage :=
  match tryBody e now with
  | Except.error _ => []
  | Except.ok none => []
  | Except.ok (some m) => [m]

/-- Vendor-library calls made by the adapter. -/
inductive VendorCall where
  | vsend (threadId text : String)
  | vtyping (threadId : String)
  | vstart
  | vstop
deriving DecidableEq, Repr

/-- Outputs of an adapter operation: an `onStatus` callback invocation or
a vendor-library call. -/
inductive AdapterOut where
  | status (s : String)
  | call (v : VendorCall)
deriving DecidableEq, Repr

/-- The mutable fields of a `ZaloClient` instance: `this.zalo` (the inner
`Zalo` object) and `this.api` (the logged-in API handle; its `listener`
is always present when `api` is). -/
structure AdapterState where
  zaloInner : Option Unit
  api : Option Unit
deriving DecidableEq, Repr

/-- Errors thrown by `sendMessage`. -/
inductive SendErr where
  | notLoggedIn
  | sendFailure
deriving DecidableEq, Repr

/-- Model of `ZaloClient.login` (zalo.ts lines 37-67).  `ok` is the
vendor outcome of `await this.zalo.login(...)`.  Returns the new state,
the outputs, and whether the method threw.  On failure the assignment
`this.api = await ...` never executes, so `api` keeps its prior value,
`onStatus("disconnected")` fires and the error is rethrown; on success
`api` is set, `onStatus("connected")` fires and the listener starts. -/
def login (st : AdapterState) (ok : Bool) : AdapterState × List AdapterOut × Bool :=
  if ok then
    (⟨some (), some ()⟩,
      [AdapterOut.status "connected", AdapterOut.call VendorCall.vstart], false)
  else
    (⟨some (), st.api⟩, [AdapterOut.status "disconnected"], true)

/-- Model of `ZaloClient.sendMessage` (zalo.ts lines 124-140).
`vendorOk` is the outcome of `await this.api.sendMessage(...)`.  Returns
the thrown-or-ok result and the vendor calls made.  With no api handle it
throws "Not logged in to Zalo" before any vendor call; otherwise the
vendor call is made and a vendor error is logged and rethrown. -/
def sendMessage (api : Option Unit) (threadId text : String) (vendorOk : Bool) :
    Except SendErr Unit × List VendorCall :=
  match api with
  | none => (Except.error SendErr.notLoggedIn, [])
  | some _ =>
    if vendorOk then
      (Except.ok (), [VendorCall.vsend threadId text])
    else
      (Except.error SendErr.sendFailure, [VendorCall.vsend threadId text])

/-- Model of `ZaloClient.sendTypingEvent` (zalo.ts lines 142-153): with
no api handle it warns and returns; otherwise it makes the vendor call
and swallows any vendor error.  It never throws. -/
def sendTypingEvent (api : Option Unit) (threadId : String) : List VendorCall :=
  match api with
  | none => []
  | some _ => [VendorCall.vtyping threadId]

/-- Model of `ZaloClient.disconnect` (zalo.ts lines 155-163): stops the
listener when an api handle is held, nulls both handles, and reports
`onStatus("disconnected")` unconditionally.  It never throws. -/
def disconnect (st : AdapterState) : AdapterState × List AdapterOut :=
  (⟨none, none⟩,
    (if st.api.isSome then [AdapterOut.call VendorCall.vstop] else [])
      ++ [AdapterOut.status "disconnected"])

end ZaloClient

namespace BridgeServer

/-- A server→client wire event (the JSON shapes of `BridgeMessage`). -/
inductive WireMsg where
  | loginResult (success : Bool)
  | statusEv (s : String)
  | messageEv (m : InboundMessage)
  | errorEv
deriving DecidableEq, Repr

/-- An observable output of one server step: `ws.send` to a particular
client, or a vendor-library call. -/
inductive Out where
  | sendTo (c : Nat) (m : WireMsg)
  | vendor (v : ZaloClient.VendorCall)
deriving DecidableEq, Repr

/-- A frame received from a client, after `JSON.parse`: `malformed` is a
frame on which `JSON.parse` throws; `login`/`send`/`typing` are the
recognized command shapes, carrying the vendor outcome of the call they
trigger as an oracle; `unknown` is valid JSON whose `type` matches no
branch of `handleCommand`. -/
inductive Frame where
  | malformed
  | login (ok : Bool)
  | send (dest text : String) (vendorOk : Bool)
  | typing (dest : String) (vendorOk : Bool)
  | unknown
deriving DecidableEq, Repr

/-- An event-loop event delivered to the server: a client connects; a
client socket leaves the OPEN ready-state (peer started closing, before
the `close` event fires); the `close` event; the socket `error` event; a
frame from a client; a vendor `"message"` event (with the `Date.now()`
oracle). -/
inductive Ev where
  | connect (c : Nat)
  | sockClosing (c : Nat)
  | close (c : Nat)
  | sockError (c : Nat)
  | frame (c : Nat) (f : Frame)
  | vendorMsg (e : RawEvent) (now : Int)
deriving DecidableEq, Repr

/-- The mutable fields of `BridgeServer`: `this.zalo` and `this.clients`.
Each member of the client set is paired with whether its socket is in
ready-state OPEN (insertion order kept, as for a JS `Set`). -/
structure ServerState where
  zalo : Option ZaloClient.AdapterState
  clients : List (Nat × Bool)
deriving DecidableEq, Repr

/-- Model of `BridgeServer.broadcast` (server.ts lines 129-136): the same
serialized message is sent to each member of the client set whose
`readyState` is `WebSocket.OPEN`, in set order. -/
def broadcast (clients : List (Nat × Bool)) (m : WireMsg) : List Out :=
  (clients.filter (fun p => p.2)).map (fun p => Out.sendTo p.1 m)

/-- Wiring of the adapter callbacks made in `handleLogin`: `onStatus`
broadcasts a `status` event to the current client set; vendor calls pass
through. -/
def emitAdapter (clients : List (Nat × Bool)) : ZaloClient.AdapterOut → List Out
  | ZaloClient.AdapterOut.status s => broadcast clients (WireMsg.statusEv s)
  | ZaloClient.AdapterOut.call v => [Out.vendor v]

/-- Model of `BridgeServer.handleLogin` (server.ts lines 97-127): create
the `ZaloClient` when `this.zalo` is null (its fields start null), call
`login`, and send the login result to the requesting connection only; the
adapter reference is kept even when `login` throws.  `handleLogin`
catches the login error, so it never throws itself. -/
def handleLogin (s : ServerState) (c : Nat) (ok : Bool) : ServerState × List Out :=
  let ad0 := s.zalo.getD ⟨none, none⟩
  let r := ZaloClient.login ad0 ok
  ({ s with zalo := some r.1 },
    (r.2.1.flatMap (emitAdapter s.clients)) ++ [Out.sendTo c (WireMsg.loginResult ok)])

/-- Model of `BridgeServer.handleCommand` (server.ts lines 84-95): route
`login` to `handleLogin`; route `send`/`typing` to the adapter only when
`this.zalo` is non-null, else fall through silently; a frame whose `type`
matches no branch falls through silently.  The Bool records whether the
routed call threw (only `sendMessage` can). -/
def handleCommand (s : ServerState) (c : Nat) (f : Frame) :
    ServerState × List Out × Bool :=
  match f with
  | Frame.login ok =>
    let r := handleLogin s c ok
    (r.1, r.2, false)
  | Frame.send dest text vendorOk =>
    match s.zalo with
    | none => (s, [], false)
    | some ad =>
      let r := ZaloClient.sendMessage ad.api dest text vendorOk
      (s, r.2.map Out.vendor, r.1.isOk = false)
  | Frame.typing dest vendorOk =>
    match s.zalo with
    | none => (s, [], false)
    | some ad =>
      let _ := vendorOk
      (s, (ZaloClient.sendTypingEvent ad.api dest).map Out.vendor, false)
  | Frame.malformed => (s, [], false)
  | Frame.unknown => (s, [], false)

/-- One step of the server's event loop (`BridgeServer.start`, server.ts
lines 47-81, plus the adapter callbacks):

 - `connect`: add the socket to the client set;
 - `sockClosing`: the socket's ready-state leaves OPEN (no handler runs);
 - `close`/`sockError`: remove the socket; when the set becomes empty and
   an adapter exists, call `disconnect()` on it and null the reference;
 - `frame`: the `"message"` handler — `JSON.parse` failure or a throw out
   of `handleCommand` is caught and answered with an `error` event to the
   originating socket only;
 - `vendorMsg`: a raw vendor event reaching the adapter's listener (only
   attached and started when a login has succeeded, i.e. `api` is held);
   each resulting `onMessage` broadcasts a `message` event. -/
def step (s : ServerState) (ev : Ev) : ServerState × List Out :=
  match ev with
  | Ev.connect c => ({ s with clients := s.clients ++ [(c, true)] }, [])
  | Ev.sockClosing c =>
    ({ s with clients :=
        s.clients.map (fun p => if p.1 = c then (p.1, false) else p) }, [])
  | Ev.close c =>
    let cs := s.clients.filter (fun p => p.1 ≠ c)
    match s.zalo with
    | some ad =>
      if cs.isEmpty then
        (⟨none, cs⟩, (ZaloClient.disconnect ad).2.flatMap (emitAdapter cs))
      else ({ s with clients := cs }, [])
    | none => ({ s with clients := cs }, [])
  | Ev.sockError c =>
    let cs := s.clients.filter (fun p => p.1 ≠ c)
    match s.zalo with
    | some ad =>
      if cs.isEmpty then
        (⟨none, cs⟩, (ZaloClient.disconnect ad).2.flatMap (emitAdapter cs))
      else ({ s with clients := cs }, [])
    | none => ({ s with clients := cs }, [])
  | Ev.frame c f =>
    match f with
    | Frame.malformed => (s, [Out.sendTo c WireMsg.errorEv])
    | _ =>
      let r := handleCommand s c f
      (r.1, r.2.1 ++ (if r.2.2 then [Out.sendTo c WireMsg.errorEv] else []))
  | Ev.vendorMsg e now =>
    match s.zalo with
    | some ad =>
      if ad.api.isSome then
        (s, (ZaloClient.messageListener e now).flatMap
              (fun m => broadcast s.clients (WireMsg.messageEv m)))
      else (s, [])
    | none => (s, [])

/-- A server state extended with two ghost observers of the history:
`att` — a `login` command has been handled since the client set last
became non-empty; `succ` — a successful `login` has completed since the
client set last became non-empty.  Both reset when the set empties. -/
structure GState where
  s : ServerState
  att : Bool
  succ : Bool
deriving DecidableEq, Repr

/-- Whether an event is admissible in the current state: `connect` only
for a socket not in the set, socket/frame events only for members.
Vendor events are always admissible. -/
def validEv (s : ServerState) (ev : Ev) : Bool :=
  match ev with
  | Ev.connect c => decide (c ∉ s.clients.map Prod.fst)
  | Ev.sockClosing c => decide (c ∈ s.clients.map Prod.fst)
  | Ev.close c => decide (c ∈ s.clients.map Prod.fst)
  | Ev.sockError c => decide (c ∈ s.clients.map Prod.fst)
  | Ev.frame c _ => decide (c ∈ s.clients.map Prod.fst)
  | Ev.vendorMsg _ _ => true

/-- One ghost-instrumented, validity-checked step. -/
def gstep (g : GState) (ev : Ev) : Option GState :=
  if validEv g.s ev then
    let s2 := (step g.s ev).1
    let isLogin := match ev with
      | Ev.frame _ (Frame.login _) => true
      | _ => false
    let isLoginOk := match ev with
      | Ev.frame _ (Frame.login true) => true
      | _ => false
    some ⟨s2,
      if isLogin then true else if s2.clients.isEmpty then false else g.att,
      if isLoginOk then true else if s2.clients.isEmpty then false else g.succ⟩
  else none

/-- The initial server state: no adapter, empty client set. -/
def init : GState := ⟨⟨none, []⟩, false, false⟩

/-- Run a trace of events from the initial state, `none` when some event
is inadmissible. -/
def procTrace (tr : List Ev) : Option GState :=
  tr.foldl (fun og ev => og.bind (fun g => gstep g ev)) (some init)

end BridgeServer

/-- Helper: a raw event with `data` present and a string `threadId`. -/
def mkEvent (d : RawData) (t : String) (ty : Nat) : RawEvent :=
  ⟨some d, JsVal.vstr t, ty⟩

/-- Recognizer for a login-result send among server outputs. -/
def isLoginResultOut : BridgeServer.Out → Bool
  | BridgeServer.Out.sendTo _ (BridgeServer.WireMsg.loginResult _) => true
  | _ => false

/-- The lifecycle invariant maintained by the server loop: when the
client set is empty no login attempt is pending, and an adapter instance
exists exactly when the client set is non-empty and a login command has
been handled since it last became non-empty. -/
def LifecycleInv (g : BridgeServer.GState) : Prop :=
  (g.s.clients = [] → g.att = false) ∧
  (g.s.zalo.isSome = true ↔ (g.s.clients ≠ [] ∧ g.att = true))

/-- Every output of a broadcast is the broadcast payload sent to a set
member whose socket is OPEN. -/
lemma broadcast_mem (cs : List (Nat × Bool)) (m : BridgeServer.WireMsg) :
    ∀ o ∈ BridgeServer.broadcast cs m,
      ∃ d, o = BridgeServer.Out.sendTo d m ∧ (d, true) ∈ cs := by
  intro o ho
  simp only [BridgeServer.broadcast, List.mem_map, List.mem_filter] at ho
  obtain ⟨⟨q, b⟩, ⟨hmem, hb⟩, rfl⟩ := ho
  simp only [decide_eq_true_eq] at hb
  subst hb
  exact ⟨q, rfl, hmem⟩

/-- A client whose id is not in the set receives nothing from a
broadcast. -/
lemma broadcast_count_notmem (cs : List (Nat × Bool)) (m : BridgeServer.WireMsg)
    (c : Nat) (hc : c ∉ cs.map Prod.fst) :
    (BridgeServer.broadcast cs m).count (BridgeServer.Out.sendTo c m) = 0 := by
  rw [List.count_eq_zero]
  intro hmem
  obtain ⟨d, hd, hdm⟩ := broadcast_mem cs m _ hmem
  obtain ⟨rfl, -⟩ := BridgeServer.Out.sendTo.inj hd
  exact hc (List.mem_map_of_mem Prod.fst hdm)

/-- With distinct socket ids, a broadcast delivers its payload exactly
once to each OPEN set member and zero times to everyone else. -/
lemma broadcast_count (cs : List (Nat × Bool)) (m : BridgeServer.WireMsg) (c : Nat)
    (hnd : (cs.map Prod.fst).Nodup) :
    (BridgeServer.broadcast cs m).count (BridgeServer.Out.sendTo c m) =
      if (c, true) ∈ cs then 1 else 0 := by
  induction cs with
  | nil => simp [BridgeServer.broadcast]
  | cons p rest ih =>
    obtain ⟨q, b⟩ := p
    simp only [List.map_cons, List.nodup_cons] at hnd
    obtain ⟨hq, hrest⟩ := hnd
    by_cases hqc : q = c
    · subst hqc
      have hzero : (BridgeServer.broadcast rest m).count (BridgeServer.Out.sendTo q m) = 0 :=
        broadcast_count_notmem rest m q hq
      have hnotmem : (q, true) ∉ rest := fun hm => hq (List.mem_map_of_mem Prod.fst hm)
      cases b <;>
        simp [BridgeServer.broadcast, List.filter_cons, List.count_cons, hzero, hnotmem] at *
    · cases b <;>
        simp [BridgeServer.broadcast, List.filter_cons, List.count_cons, Ne.symm hqc,
          Prod.ext_iff] <;>
        simpa [BridgeServer.broadcast] using ih hrest

/-- Broadcasting a status event produces no login-result sends. -/
lemma filter_loginResult_broadcast (cs : List (Nat × Bool)) (t : String) :
    (BridgeServer.broadcast cs (BridgeServer.WireMsg.statusEv t)).filter isLoginResultOut
      = [] := by
  rw [List.filter_eq_nil_iff]
  intro o ho
  obtain ⟨d, rfl, -⟩ := broadcast_mem cs (BridgeServer.WireMsg.statusEv t) o ho
  simp [isLoginResultOut]

/-- Handling a `login` command sends exactly one login-result event,
addressed to the requesting connection. -/
lemma handleLogin_loginResult (s : BridgeServer.ServerState) (c : Nat) (ok : Bool) :
    ((BridgeServer.step s (BridgeServer.Ev.frame c (BridgeServer.Frame.login ok))).2.filter
      isLoginResultOut) = [BridgeServer.Out.sendTo c (BridgeServer.WireMsg.loginResult ok)] := by
  cases ok <;>
    simp [BridgeServer.step, BridgeServer.handleCommand, BridgeServer.handleLogin,
      ZaloClient.login, BridgeServer.emitAdapter, List.filter_append,
      filter_loginResult_broadcast, isLoginResultOut]

/-- The initial state satisfies the lifecycle invariant. -/
lemma lifecycle_inv_init : LifecycleInv BridgeServer.init := by
  simp [LifecycleInv, BridgeServer.init]

/-- Each admissible event preserves the lifecycle invariant. -/
lemma lifecycle_inv_step (g g2 : BridgeServer.GState) (ev : BridgeServer.Ev)
    (hg : LifecycleInv g) (h : BridgeServer.gstep g ev = some g2) : LifecycleInv g2 := by
  obtain ⟨hg1, hg2⟩ := hg
  unfold BridgeServer.gstep at h
  split at h
  · rename_i hv
    injection h with h
    subst h
    cases ev with
    | connect c =>
      constructor
      · intro hemp
        simp [BridgeServer.step] at hemp
      · by_cases hcs : g.s.clients = []
        · have ha := hg1 hcs
          simp [hcs, ha] at hg2
          simp [BridgeServer.step, ha, hg2]
        · simp [hcs] at hg2
          simp [BridgeServer.step, hcs, hg2]
    | sockClosing c =>
      simp only [BridgeServer.validEv, decide_eq_true_eq] at hv
      have hcs : g.s.clients ≠ [] := by
        rintro hnil
        rw [hnil] at hv
        simp at hv
      simp [hcs] at hg2
      constructor
      · intro hemp
        simp [BridgeServer.step, List.map_eq_nil_iff] at hemp
        exact absurd hemp hcs
      · simp [BridgeServer.step, List.map_eq_nil_iff, hcs, hg2]
    | close c =>
      simp only [BridgeServer.validEv, decide_eq_true_eq] at hv
      have hcs : g.s.clients ≠ [] := by
        rintro hnil
        rw [hnil] at hv
        simp at hv
      rcases hz : g.s.zalo with _ | ad
      · simp [hz, hcs] at hg2
        simp [LifecycleInv, BridgeServer.step, hz, hg2]
      · simp [hz, hcs] at hg2
        simp only [BridgeServer.step, hz]
        split
        · rename_i hemp
          simp [LifecycleInv, hemp]
        · rename_i hemp
          simp only [List.isEmpty_iff] at hemp
          simp [LifecycleInv, hemp, hg2, List.isEmpty_iff]
          simpa using hemp
    | sockError c =>
      simp only [BridgeServer.validEv, decide_eq_true_eq] at hv
      have hcs : g.s.clients ≠ [] := by
        rintro hnil
        rw [hnil] at hv
        simp at hv
      rcases hz : g.s.zalo with _ | ad
      · simp [hz, hcs] at hg2
        simp [LifecycleInv, BridgeServer.step, hz, hg2]
      · simp [hz, hcs] at hg2
        simp only [BridgeServer.step, hz]
        split
        · rename_i hemp
          simp [LifecycleInv, hemp]
        · rename_i hemp
          simp only [List.isEmpty_iff] at hemp
          simp [LifecycleInv, hemp, hg2, List.isEmpty_iff]
          simpa using hemp
    | frame c f =>
      simp only [BridgeServer.validEv, decide_eq_true_eq] at hv
      have hcs : g.s.clients ≠ [] := by
        rintro hnil
        rw [hnil] at hv
        simp at hv
      simp [hcs] at hg2
      cases f with
      | malformed => simp [LifecycleInv, BridgeServer.step, hcs, hg2]
      | login ok =>
        simp [LifecycleInv, BridgeServer.step, BridgeServer.handleCommand,
          BridgeServer.handleLogin, hcs]
      | send dest text vOk =>
        rcases hz : g.s.zalo with _ | ad <;>
          simp [LifecycleInv, BridgeServer.step, BridgeServer.handleCommand, hz, hcs,
            hz ▸ hg2]
      | typing dest vOk =>
        rcases hz : g.s.zalo with _ | ad <;>
          simp [LifecycleInv, BridgeServer.step, BridgeServer.handleCommand, hz, hcs,
            hz ▸ hg2]
      | unknown => simp [LifecycleInv, BridgeServer.step, BridgeServer.handleCommand, hcs, hg2]
    | vendorMsg e now =>
      have hst : (BridgeServer.step g.s (BridgeServer.Ev.vendorMsg e now)).1 = g.s := by
        rcases hz : g.s.zalo with _ | ad
        · simp [BridgeServer.step, hz]
        · by_cases hapi : ad.api.isSome = true <;> simp [BridgeServer.step, hz, hapi]
      by_cases hcs : g.s.clients = []
      · have ha := hg1 hcs
        simp [LifecycleInv, hst, hcs, ha] at hg2 ⊢
        simpa [ha] using hg2
      · simp [hcs] at hg2
        simp [LifecycleInv, hst, hcs, hg2]
  · exact Option.noConfusion h

/-- Folding the event processor from a dead (`none`) accumulator stays
dead. -/
lemma procTrace_none (tr : List BridgeServer.Ev) :
    tr.foldl (fun og ev => og.bind (fun g => BridgeServer.gstep g ev)) none = none := by
  induction tr <;> simp [*]

/-- The lifecycle invariant holds after any admissible run from an
invariant-satisfying start state. -/
lemma inv_run (tr : List BridgeServer.Ev) : ∀ g0 g : BridgeServer.GState,
    LifecycleInv g0 →
    tr.foldl (fun og ev => og.bind (fun g => BridgeServer.gstep g ev)) (some g0) = some g →
    LifecycleInv g := by
  induction tr with
  | nil =>
    intro g0 g h0 h
    simp at h
    exact h ▸ h0
  | cons ev rest ih =>
    intro g0 g h0 h
    simp only [List.foldl_cons, Option.some_bind] at h
    rcases hg1 : BridgeServer.gstep g0 ev with _ | g1
    · rw [hg1, procTrace_none] at h
      exact Option.noConfusion h
    · rw [hg1] at h
      exact ih g1 g (lifecycle_inv_step g0 g1 ev h0 hg1) h

/-- C1 counterexample: the claim says a structured payload without a
non-null `href` field (here: `href` absent/undefined) produces no event,
but `message.data.content.href !== null` is true for `undefined`, so the
listener forwards `{type: "attachment", href: undefined}`. -/
theorem C1_claim_counterexample :
    ZaloClient.messageListener
      (mkEvent ⟨JsVal.vstr "u1", JsVal.vstr "m1", JsVal.vnum 7, JsContent.cobj JsVal.vundef⟩
        "thread1" 0) 5 =
      [⟨JsVal.vstr "u1", "thread1", MsgContent.attachment JsVal.vundef, JsVal.vstr "m1", 7, false⟩]
    ∧ ZaloClient.messageListener
      (mkEvent ⟨JsVal.vstr "u1", JsVal.vstr "m1", JsVal.vnum 7, JsContent.cobj JsVal.vundef⟩
        "thread1" 0) 5 ≠ [] := by
  decide

/-- C1 (amended): for every raw vendor event with its envelope intact
(`data` present, `threadId` a string), a string content is forwarded
verbatim; a structured content whose `href` value is anything other than
exactly `null` (including absent/undefined) is forwarded re-shaped as an
attachment carrying that `href` value; a structured content with
`href === null` produces no event; and a nullish content throws inside
the handler, is caught, and produces no event. -/
theorem C1_content_classification (d : RawData) (t : String) (ty : Nat) (now : Int) :
    (∀ s, d.content = JsContent.cstr s →
      (ZaloClient.messageListener (mkEvent d t ty) now).map InboundMessage.content =
        [MsgContent.text s]) ∧
    (∀ h, d.content = JsContent.cobj h → h ≠ JsVal.vnull →
      (ZaloClient.messageListener (mkEvent d t ty) now).map InboundMessage.content =
        [MsgContent.attachment h]) ∧
    (d.content = JsContent.cobj JsVal.vnull →
      ZaloClient.messageListener (mkEvent d t ty) now = []) ∧
    ((d.content = JsContent.cnull ∨ d.content = JsContent.cundef) →
      ZaloClient.messageListener (mkEvent d t ty) now = []) := by
  obtain ⟨uid, mid, ts, cont⟩ := d
  refine ⟨?_, ?_, ?_, ?_⟩
  · rintro s rfl
    simp [ZaloClient.messageListener, ZaloClient.tryBody, mkEvent]
  · rintro h rfl hne
    simp [ZaloClient.messageListener, ZaloClient.tryBody, mkEvent, hne]
  · rintro rfl
    simp [ZaloClient.messageListener, ZaloClient.tryBody, mkEvent]
  · rintro (rfl | rfl) <;>
      simp [ZaloClient.messageListener, ZaloClient.tryBody, mkEvent]

/-- C1 witness: the amended theorem instantiated on the spec's own test
vector, content `"hello"`. -/
theorem C1_content_classification_witness :
    (ZaloClient.messageListener
      (mkEvent ⟨JsVal.vstr "u", JsVal.vstr "m", JsVal.vnum 3, JsContent.cstr "hello"⟩ "t" 0)
      9).map InboundMessage.content = [MsgContent.text "hello"] :=
  (C1_content_classification
    ⟨JsVal.vstr "u", JsVal.vstr "m", JsVal.vnum 3, JsContent.cstr "hello"⟩ "t" 0 9).1
    "hello" rfl

/-- C3 counterexample: a vendor event whose `ts` field is present and
numeric with value `0` is forwarded, yet its emitted timestamp is the
receipt time (999), not the vendor value: `Number(0) || Date.now()`
takes the fallback because `0` is falsy. -/
theorem C3_claim_counterexample :
    (ZaloClient.messageListener
      (mkEvent ⟨JsVal.vstr "u", JsVal.vstr "m", JsVal.vnum 0, JsContent.cstr "hi"⟩ "t" 0)
      999).map InboundMessage.timestamp = [999] ∧ (999 : Int) ≠ 0 := by
  decide

/-- C3 (amended): for every forwarded inbound event, the emitted
timestamp equals `Number(ts)` whenever that coercion yields a non-zero
number, and equals the current local receipt time whenever the coercion
yields NaN (absent or non-numeric field) or `0` (both falsy); it is
never left undefined (the field is total). -/
theorem C3_timestamp_fallback (d : RawData) (t : String) (ty : Nat) (now : Int) :
    ∀ m ∈ ZaloClient.messageListener (mkEvent d t ty) now,
      (∀ n, jsNumber d.ts = some n → n ≠ 0 → m.timestamp = n) ∧
      ((jsNumber d.ts = none ∨ jsNumber d.ts = some 0) → m.timestamp = now) := by
  obtain ⟨uid, mid, ts, cont⟩ := d
  intro m hm
  cases cont with
  | cstr s =>
    simp [ZaloClient.messageListener, ZaloClient.tryBody, mkEvent] at hm
    subst hm
    constructor
    · intro n hn hne
      simp [hn, hne]
    · rintro (hn | hn) <;> simp [hn]
  | cobj href =>
    by_cases hh : href = JsVal.vnull
    · simp [ZaloClient.messageListener, ZaloClient.tryBody, mkEvent, hh] at hm
    · simp [ZaloClient.messageListener, ZaloClient.tryBody, mkEvent, hh] at hm
      subst hm
      constructor
      · intro n hn hne
        simp [hn, hne]
      · rintro (hn | hn) <;> simp [hn]
  | cnull =>
    simp [ZaloClient.messageListener, ZaloClient.tryBody, mkEvent] at hm
  | cundef =>
    simp [ZaloClient.messageListener, ZaloClient.tryBody, mkEvent] at hm

/-- C3 witness: the amended theorem instantiated on an event with an
absent (`undefined`) `ts` field, whose emitted timestamp is the receipt
time 999. -/
theorem C3_timestamp_fallback_witness :
    (⟨JsVal.vstr "u", "t", MsgContent.text "hi", JsVal.vstr "m", 999, false⟩ :
      InboundMessage).timestamp = 999 :=
  (C3_timestamp_fallback
    ⟨JsVal.vstr "u", JsVal.vstr "m", JsVal.vundef, JsContent.cstr "hi"⟩ "t" 0 999
    ⟨JsVal.vstr "u", "t", MsgContent.text "hi", JsVal.vstr "m", 999, false⟩
    (by decide)).2
    (Or.inl rfl)

/-- C9: the vendor-event handler is exception-safe and at-most-once: for
every raw vendor event the catch-all swallows anything the try block
throws (a thrown `tryBody` yields no `onMessage` call), and the handler
invokes `onMessage` at most once, with a complete `InboundMessage`
record (all six fields populated, by the totality of the record type). -/
theorem C9_listener_exception_safe (e : RawEvent) (now : Int) :
    (ZaloClient.messageListener e now).length ≤ 1 ∧
    (∀ a, ZaloClient.tryBody e now = Except.error a →
      ZaloClient.messageListener e now = []) := by
  constructor
  · unfold ZaloClient.messageListener
    rcases ZaloClient.tryBody e now with _ | (_ | m) <;> simp
  · intro a ha
    unfold ZaloClient.messageListener
    rw [ha]

/-- C9 witness: on an event whose `data` is nullish the try block throws
(`message.data.content` access) and the handler makes no call. -/
theorem C9_listener_exception_safe_witness :
    ZaloClient.messageListener ⟨none, JsVal.vstr "t", 0⟩ 0 = [] ∧
    (ZaloClient.messageListener ⟨none, JsVal.vstr "t", 0⟩ 0).length ≤ 1 :=
  ⟨(C9_listener_exception_safe ⟨none, JsVal.vstr "t", 0⟩ 0).2 JsErr.typeError rfl,
   (C9_listener_exception_safe ⟨none, JsVal.vstr "t", 0⟩ 0).1⟩

/-- C6: `sendMessage` throws the NotLoggedIn error exactly when no api
handle is held, and then makes no vendor call; with a handle it delegates
to the vendor send, returns ok on vendor success, and propagates a
vendor failure to the caller as a SendFailure instead of swallowing it. -/
theorem C6_sendMessage_contract (api : Option Unit) (dest text : String) (vOk : Bool) :
    ((ZaloClient.sendMessage api dest text vOk).1 = Except.error ZaloClient.SendErr.notLoggedIn
      ↔ api = none) ∧
    (api = none → (ZaloClient.sendMessage api dest text vOk).2 = []) ∧
    (api.isSome = true → (ZaloClient.sendMessage api dest text vOk).2 =
      [ZaloClient.VendorCall.vsend dest text]) ∧
    (api.isSome = true → vOk = false →
      (ZaloClient.sendMessage api dest text vOk).1 = Except.error ZaloClient.SendErr.sendFailure) ∧
    (api.isSome = true → vOk = true →
      (ZaloClient.sendMessage api dest text vOk).1 = Except.ok ()) := by
  cases api <;> cases vOk <;> simp [ZaloClient.sendMessage]

/-- C6 witness: with no api handle the call fails NotLoggedIn and makes
no vendor call. -/
theorem C6_sendMessage_contract_witness :
    (ZaloClient.sendMessage none "t1" "hello" true).1 =
      Except.error ZaloClient.SendErr.notLoggedIn ∧
    (ZaloClient.sendMessage none "t1" "hello" true).2 = [] :=
  ⟨(C6_sendMessage_contract none "t1" "hello" true).1.mpr rfl,
   (C6_sendMessage_contract none "t1" "hello" true).2.1 rfl⟩

/-- C8: `disconnect` is total (it never throws, being a plain function)
and idempotent: from any prior adapter state it stops the vendor
listener exactly when an api handle is held, nulls both handles, reports
`onStatus("disconnected")` exactly once, and a second call leaves the
same state as the first. -/
theorem C8_disconnect_idempotent (st : ZaloClient.AdapterState) :
    (ZaloClient.disconnect st).1 = ⟨none, none⟩ ∧
    (ZaloClient.disconnect st).2.count (ZaloClient.AdapterOut.status "disconnected") = 1 ∧
    (st.api.isSome = true →
      (ZaloClient.disconnect st).2 =
        [ZaloClient.AdapterOut.call ZaloClient.VendorCall.vstop,
         ZaloClient.AdapterOut.status "disconnected"]) ∧
    (st.api = none →
      (ZaloClient.disconnect st).2 = [ZaloClient.AdapterOut.status "disconnected"]) ∧
    (ZaloClient.disconnect (ZaloClient.disconnect st).1).1 = (ZaloClient.disconnect st).1 := by
  obtain ⟨z, api⟩ := st
  cases api <;> simp [ZaloClient.disconnect]

/-- C8 witness: disconnecting a logged-in adapter stops the listener,
reports disconnected once, and reaches the cleared state. -/
theorem C8_disconnect_idempotent_witness :
    (ZaloClient.disconnect ⟨some (), some ()⟩).1 = ⟨none, none⟩ ∧
    (ZaloClient.disconnect ⟨some (), some ()⟩).2 =
      [ZaloClient.AdapterOut.call ZaloClient.VendorCall.vstop,
       ZaloClient.AdapterOut.status "disconnected"] :=
  ⟨(C8_disconnect_idempotent ⟨some (), some ()⟩).1,
   (C8_disconnect_idempotent ⟨some (), some ()⟩).2.2.1 rfl⟩

/-- C4: a `send` or `typing` command handled while `this.zalo` is null
(no login command has been handled since the server entered no-session)
is a complete no-op: `handleCommand` falls through its guard, so no
adapter or vendor call is made, nothing is sent to any client, the state
is unchanged, and nothing is thrown (no error event is appended by the
message handler). -/
theorem C4_no_session_noop (s : BridgeServer.ServerState) (c : Nat)
    (dest text : String) (vOk1 vOk2 : Bool) (h : s.zalo = none) :
    BridgeServer.step s (BridgeServer.Ev.frame c (BridgeServer.Frame.send dest text vOk1)) =
      (s, []) ∧
    BridgeServer.step s (BridgeServer.Ev.frame c (BridgeServer.Frame.typing dest vOk2)) =
      (s, []) := by
  constructor <;> simp [BridgeServer.step, BridgeServer.handleCommand, h]

/-- C4 witness: a `send` and a `typing` command from a connected client
with no session are both no-ops. -/
theorem C4_no_session_noop_witness :
    BridgeServer.step ⟨none, [(0, true)]⟩
      (BridgeServer.Ev.frame 0 (BridgeServer.Frame.send "t1" "hi" true)) =
      (⟨none, [(0, true)]⟩, []) ∧
    BridgeServer.step ⟨none, [(0, true)]⟩
      (BridgeServer.Ev.frame 0 (BridgeServer.Frame.typing "t1" true)) =
      (⟨none, [(0, true)]⟩, []) :=
  C4_no_session_noop ⟨none, [(0, true)]⟩ 0 "t1" "hi" true true rfl

/-- C5 counterexample: the claim says every frame whose parsed shape is
not a recognized command gets an `error` event back; but a frame that
parses as JSON with an unrecognized `type` falls through every branch of
`handleCommand` silently — no event at all is sent. -/
theorem C5_claim_counterexample :
    ¬ (∀ (s : BridgeServer.ServerState) (c : Nat),
        BridgeServer.Out.sendTo c BridgeServer.WireMsg.errorEv ∈
          (BridgeServer.step s (BridgeServer.Ev.frame c BridgeServer.Frame.unknown)).2) := by
  intro h
  have h0 := h ⟨none, [(0, true)]⟩ 0
  simp [BridgeServer.step, BridgeServer.handleCommand] at h0

/-- C5 (amended): a frame on which `JSON.parse` throws gets an `error`
event sent to the originating client only, and the originating
connection stays in the client set (state unchanged); a frame that
parses but matches none of the `login`/`send`/`typing` shapes is
silently ignored (no event, state unchanged) — in neither case is the
connection closed. -/
theorem C5_malformed_and_unknown_frames (s : BridgeServer.ServerState) (c : Nat) :
    BridgeServer.step s (BridgeServer.Ev.frame c BridgeServer.Frame.malformed) =
      (s, [BridgeServer.Out.sendTo c BridgeServer.WireMsg.errorEv]) ∧
    BridgeServer.step s (BridgeServer.Ev.frame c BridgeServer.Frame.unknown) = (s, []) := by
  constructor <;> simp [BridgeServer.step, BridgeServer.handleCommand]

/-- C10: after a failed login from the no-session state the adapter
reference is retained (`this.zalo` non-null, api handle still null) and
the failure result went to the requester; a subsequent `send` from any
client is then routed to that adapter, whose NotLoggedIn exception is
caught by the message handler, so that client gets an `error` event
(and no vendor call is made) instead of being silently ignored. -/
theorem C10_failed_login_then_send (s : BridgeServer.ServerState) (c : Nat)
    (h : s.zalo = none) :
    (BridgeServer.step s (BridgeServer.Ev.frame c (BridgeServer.Frame.login false))).1.zalo =
      some ⟨some (), none⟩ ∧
    BridgeServer.Out.sendTo c (BridgeServer.WireMsg.loginResult false) ∈
      (BridgeServer.step s (BridgeServer.Ev.frame c (BridgeServer.Frame.login false))).2 ∧
    (∀ d dest text vOk,
      BridgeServer.step
        (BridgeServer.step s (BridgeServer.Ev.frame c (BridgeServer.Frame.login false))).1
        (BridgeServer.Ev.frame d (BridgeServer.Frame.send dest text vOk)) =
      ((BridgeServer.step s (BridgeServer.Ev.frame c (BridgeServer.Frame.login false))).1,
        [BridgeServer.Out.sendTo d BridgeServer.WireMsg.errorEv])) := by
  refine ⟨?_, ?_, ?_⟩
  · simp [BridgeServer.step, BridgeServer.handleCommand, BridgeServer.handleLogin,
      ZaloClient.login, h]
  · simp [BridgeServer.step, BridgeServer.handleCommand, BridgeServer.handleLogin,
      ZaloClient.login, h]
  · intro d dest text vOk
    simp [BridgeServer.step, BridgeServer.handleCommand, BridgeServer.handleLogin,
      ZaloClient.login, ZaloClient.sendMessage, Except.isOk, Except.toBool, h]

/-- C10 witness: the failed-login-then-send scenario run concretely from
one connected client. -/
theorem C10_failed_login_then_send_witness :
    BridgeServer.step
      (BridgeServer.step ⟨none, [(0, true)]⟩
        (BridgeServer.Ev.frame 0 (BridgeServer.Frame.login false))).1
      (BridgeServer.Ev.frame 0 (BridgeServer.Frame.send "t1" "hi" true)) =
    ((BridgeServer.step ⟨none, [(0, true)]⟩
        (BridgeServer.Ev.frame 0 (BridgeServer.Frame.login false))).1,
      [BridgeServer.Out.sendTo 0 BridgeServer.WireMsg.errorEv]) :=
  (C10_failed_login_then_send ⟨none, [(0, true)]⟩ 0 rfl).2.2 0 "t1" "hi" true

/-- C7 counterexample: the claim says every client currently in the
connected-client set receives a broadcast exactly once; but `broadcast`
guards on `readyState === OPEN`, so a set member whose socket has left
OPEN (close event not yet processed) receives nothing. -/
theorem C7_claim_counterexample :
    ¬ (∀ (cs : List (Nat × Bool)) (m : BridgeServer.WireMsg) (p : Nat × Bool), p ∈ cs →
        (BridgeServer.broadcast cs m).count (BridgeServer.Out.sendTo p.1 m) = 1) := by
  intro hall
  have h := hall [(0, true), (1, false)] (BridgeServer.WireMsg.statusEv "connected")
    (1, false) (by decide)
  simp [BridgeServer.broadcast, List.filter_cons, List.count_cons] at h

/-- C7 (amended): a broadcast delivers the identical event exactly once
to each member of the connected-client set whose socket is OPEN, zero
times to every other socket id (in particular never to a client removed
from the set before the broadcast, and not to set members whose socket
already left OPEN); and the login result event is sent exactly once,
solely to the requesting connection. -/
theorem C7_broadcast_delivery (cs : List (Nat × Bool)) (m : BridgeServer.WireMsg)
    (c : Nat) (hnd : (cs.map Prod.fst).Nodup) :
    ((BridgeServer.broadcast cs m).count (BridgeServer.Out.sendTo c m) =
      if (c, true) ∈ cs then 1 else 0) ∧
    (∀ o ∈ BridgeServer.broadcast cs m,
      ∃ d, o = BridgeServer.Out.sendTo d m ∧ (d, true) ∈ cs) ∧
    (∀ (s : BridgeServer.ServerState) (ok : Bool),
      ((BridgeServer.step s (BridgeServer.Ev.frame c (BridgeServer.Frame.login ok))).2.filter
        isLoginResultOut) =
      [BridgeServer.Out.sendTo c (BridgeServer.WireMsg.loginResult ok)]) :=
  ⟨broadcast_count cs m c hnd, broadcast_mem cs m,
    fun s ok => handleLogin_loginResult s c ok⟩

/-- C7 witness: with two OPEN clients and one removed, client 0 receives
the broadcast exactly once and the removed id 5 receives nothing. -/
theorem C7_broadcast_delivery_witness :
    ((BridgeServer.broadcast [(0, true), (1, true)]
        (BridgeServer.WireMsg.statusEv "connected")).count
      (BridgeServer.Out.sendTo 0 (BridgeServer.WireMsg.statusEv "connected")) = 1) ∧
    ((BridgeServer.broadcast [(0, true), (1, true)]
        (BridgeServer.WireMsg.statusEv "connected")).count
      (BridgeServer.Out.sendTo 5 (BridgeServer.WireMsg.statusEv "connected")) = 0) := by
  constructor
  · have h := (C7_broadcast_delivery [(0, true), (1, true)]
      (BridgeServer.WireMsg.statusEv "connected") 0 (by decide)).1
    simpa using h
  · have h := (C7_broadcast_delivery [(0, true), (1, true)]
      (BridgeServer.WireMsg.statusEv "connected") 5 (by decide)).1
    simpa using h

/-- C2 counterexample: the claim ties an existing session to a
*successful* login since the set became non-empty; but after one client
connects and its login attempt fails, `handleLogin` retains the adapter
instance (`this.zalo` non-null) although no successful login occurred. -/
theorem C2_claim_counterexample :
    ¬ (∀ (tr : List BridgeServer.Ev) (g : BridgeServer.GState),
        BridgeServer.procTrace tr = some g →
        (g.s.zalo.isSome = true ↔ (g.s.clients ≠ [] ∧ g.succ = true))) := by
  intro hall
  have h := hall
    [BridgeServer.Ev.connect 0, BridgeServer.Ev.frame 0 (BridgeServer.Frame.login false)]
    ⟨⟨some ⟨some (), none⟩, [(0, true)]⟩, true, false⟩ (by decide)
  have h2 := (h.mp rfl).2
  exact absurd h2 (by decide)

/-- C2 (amended): along every admissible trace of connects, disconnects
and commands, at most one adapter exists (the `zalo` field is a single
option), and an adapter instance exists if and only if the client set is
non-empty and a login command (of either outcome) has been handled since
the set last became non-empty; teardown therefore happens exactly when
the set empties, never on a disconnect that leaves it non-empty. -/
theorem C2_session_lifecycle (tr : List BridgeServer.Ev) (g : BridgeServer.GState)
    (h : BridgeServer.procTrace tr = some g) :
    g.s.zalo.isSome = true ↔ (g.s.clients ≠ [] ∧ g.att = true) :=
  (inv_run tr BridgeServer.init g lifecycle_inv_init h).2

/-- C2 witness: after connect and a successful login the adapter exists,
the set is non-empty and a login has been handled. -/
theorem C2_session_lifecycle_witness :
    (⟨⟨some ⟨some (), some ()⟩, [(0, true)]⟩, true, true⟩ :
        BridgeServer.GState).s.clients ≠ [] ∧
    (⟨⟨some ⟨some (), some ()⟩, [(0, true)]⟩, true, true⟩ :
        BridgeServer.GState).att = true :=
  (C2_session_lifecycle
    [BridgeServer.Ev.connect 0, BridgeServer.Ev.frame 0 (BridgeServer.Frame.login true)]
    ⟨⟨some ⟨some (), some ()⟩, [(0, true)]⟩, true, true⟩ (by decide)).mp rfl
